import Mathlib

/-!
Shallow embedding of `src/server.js` (dechat-backend5).

The file contains two concatenated server variants:
* variant 1 (lines 1–330): OTP store is a plain object keyed by email,
  `send-otp` validates the email with a regex and stores `attempts: 0`;
  `verify-otp` counts wrong attempts and locks after 3.
* variant 2 (lines 332–665): OTP store is a `Map`, `send-otp` only checks
  that the email is truthy and stores no `attempts` field; `verify-otp`
  has no attempt counting at all.

Durable state is modelled explicitly: an `OtpState` carries the in-memory
store (`mem`) and the last successfully written snapshot (`disk`).  A file
write may succeed or fail; `saveOtps` catches any error (it only logs),
so from the caller's point of view it always succeeds, and `disk` is
updated only when the write succeeded.  `saveMessage` rethrows on error,
modelled with `Except`.  Nondeterministic inputs of the handlers (current
time, freshly generated ids and codes, write/mail outcomes) are passed as
explicit parameters.
-/

/-- One OTP record.  `attempts` is an `Option` because variant 2's
`send-otp` stores no `attempts` field at all. -/
structure OtpEntry where
  otp : String
  expiresAt : Nat
  attempts : Option Nat
  deriving DecidableEq

/-- The OTP store: email keys to entries (JS object / Map). -/
abbrev OtpMap := String → Option OtpEntry

def emptyOtpMap : OtpMap := fun _ => none

/-- `otpStorage[email] = v` / `otpStorage.set(email, v)`. -/
def setEntry (k : String) (v : OtpEntry) (m : OtpMap) : OtpMap :=
  fun x => if x = k then some v else m x

/-- `delete otpStorage[email]` / `otpStorage.delete(email)`. -/
def delEntry (k : String) (m : OtpMap) : OtpMap :=
  fun x => if x = k then none else m x

/-- In-memory OTP store plus the durable snapshot on disk. -/
structure OtpState where
  mem : OtpMap
  disk : OtpMap

/-- `saveOtps` writes the whole in-memory store to the OTP file, but its
`try/catch` only logs a failed write, so the caller always sees it
complete; `disk` changes only when the underlying write succeeded. -/
def saveOtps (writeOk : Bool) (s : OtpState) : OtpState :=
  if writeOk then { mem := s.mem, disk := s.mem } else s

/-- Outcomes of `POST /api/auth/verify-otp` (both variants return 400
with a distinguishing message, or 200 on success). -/
inductive VerifyResult where
  | badRequest
  | notFound
  | expired
  | invalid
  | locked
  | verified
  deriving DecidableEq

/-- Outcomes of `POST /api/auth/send-otp`. -/
inductive SendResult where
  | badRequest
  | success
  | sendFailure
  deriving DecidableEq

/-- `verify-otp` handler, variant 1 (lines 255–286): missing body fields
→ 400; no entry → "OTP not found"; past `expiresAt` → delete + save +
"OTP expired"; wrong code → increment `attempts` (treating a missing
field as 0), lock (delete + save) once it reaches 3, otherwise return
"Invalid OTP" without calling `saveOtps`; right code → delete + save +
success. -/
def verifyOtp1 (now : Nat) (email otp : String) (writeOk : Bool) (s : OtpState) :
    VerifyResult × OtpState :=
  if email = "" ∨ otp = "" then (VerifyResult.badRequest, s)
  else
    match s.mem email with
    | none => (VerifyResult.notFound, s)
    | some stored =>
      if stored.expiresAt < now then
        (VerifyResult.expired, saveOtps writeOk { s with mem := delEntry email s.mem })
      else if stored.otp ≠ otp then
        if 3 ≤ stored.attempts.getD 0 + 1 then
          (VerifyResult.locked, saveOtps writeOk { s with mem := delEntry email s.mem })
        else
          let e2 : OtpEntry := { stored with attempts := some (stored.attempts.getD 0 + 1) }
          (VerifyResult.invalid, { s with mem := setEntry email e2 s.mem })
      else
        (VerifyResult.verified, saveOtps writeOk { s with mem := delEntry email s.mem })

/-- `verify-otp` handler, variant 2 (lines 579–602): same as variant 1
except a wrong code simply returns "Invalid OTP" with no attempt
counting and no state change. -/
def verifyOtp2 (now : Nat) (email otp : String) (writeOk : Bool) (s : OtpState) :
    VerifyResult × OtpState :=
  if email = "" ∨ otp = "" then (VerifyResult.badRequest, s)
  else
    match s.mem email with
    | none => (VerifyResult.notFound, s)
    | some stored =>
      if stored.expiresAt < now then
        (VerifyResult.expired, saveOtps writeOk { s with mem := delEntry email s.mem })
      else if stored.otp ≠ otp then
        (VerifyResult.invalid, s)
      else
        (VerifyResult.verified, saveOtps writeOk { s with mem := delEntry email s.mem })

/-- The email test of variant 1's `send-otp`: the JS regex
`/^[^\s@]+@[^\s@]+\.[^\s@]+$/` holds iff the string has no whitespace,
exactly one `@`, a nonempty part before the `@`, and after the `@` a dot
that is neither the first nor the last character of the domain part. -/
def validEmail (s : String) : Bool :=
  let cs := s.data
  let domain := (cs.dropWhile (fun c => c ≠ '@')).drop 1
  cs.all (fun c => !c.isWhitespace) &&
  (cs.count '@' == 1) &&
  (!(cs.takeWhile (fun c => c ≠ '@')).isEmpty) &&
  ((domain.drop 1).dropLast.contains '.')

/-- `send-otp` handler, variant 1 (lines 226–253): regex-validate the
email, store a fresh entry with `attempts = 0` and
`expiresAt = now + 300000`, `await saveOtps()` (which cannot fail from
the handler's view), then send the mail; a mail failure is caught and
answered with 500, after the store was already mutated. -/
def sendOtp1 (now : Nat) (email newCode : String) (writeOk mailOk : Bool) (s : OtpState) :
    SendResult × OtpState :=
  if !(validEmail email) then (SendResult.badRequest, s)
  else
    let entry : OtpEntry := { otp := newCode, expiresAt := now + 300000, attempts := some 0 }
    let s1 := saveOtps writeOk { s with mem := setEntry email entry s.mem }
    if mailOk then (SendResult.success, s1) else (SendResult.sendFailure, s1)

/-- `send-otp` handler, variant 2 (lines 553–577): only checks the email
is truthy; the stored entry has no `attempts` field. -/
def sendOtp2 (now : Nat) (email newCode : String) (writeOk mailOk : Bool) (s : OtpState) :
    SendResult × OtpState :=
  if email = "" then (SendResult.badRequest, s)
  else
    let entry : OtpEntry := { otp := newCode, expiresAt := now + 300000, attempts := none }
    let s1 := saveOtps writeOk { s with mem := setEntry email entry s.mem }
    if mailOk then (SendResult.success, s1) else (SendResult.sendFailure, s1)

/-- A raw inbound message body (`req.body` or a ws `message` frame);
every field the handlers touch is caller-supplied and may be absent. -/
structure RawMessage where
  group : Option String
  text : Option String
  sender : Option String
  senderId : Option String
  status : Option String
  deriving DecidableEq

/-- A finalized message as built by the handlers and stored in the log. -/
structure Message where
  id : String
  group : Option String
  text : Option String
  sender : Option String
  senderId : Option String
  timestamp : Nat
  status : Option String
  deriving DecidableEq

/-- `saveMessage`: read the log, push, write it back; on an I/O error it
rethrows (`throw err`), so the caller sees the failure. -/
def saveMessage (writeOk : Bool) (m : Message) (log : List Message) :
    Except Unit (List Message) :=
  if writeOk then Except.ok (log ++ [m]) else Except.error ()

/-- `getMessages(group)`: all stored messages whose `group` strictly
equals the argument, in log order. -/
def getMessages (group : String) (log : List Message) : List Message :=
  log.filter (fun m => m.group == some group)

/-- The message object built by `POST /api/messages` (both variants):
`{...req.body, id, timestamp}` — note no `status` is assigned, it stays
whatever the caller supplied. -/
def restFinalize (body : RawMessage) (newId : String) (ts : Nat) : Message :=
  { id := newId, group := body.group, text := body.text, sender := body.sender,
    senderId := body.senderId, timestamp := ts, status := body.status }

/-- The message object built by the ws `message` handlers (variant 1
builds it field by field, variant 2 spreads and overrides); both set
`status: 'delivered'` alongside the fresh `id` and `timestamp`. -/
def wsFinalize (body : RawMessage) (newId : String) (ts : Nat) : Message :=
  { id := newId, group := body.group, text := body.text, sender := body.sender,
    senderId := body.senderId, timestamp := ts, status := some "delivered" }

/-- One entry of the `clients` map: subscribed group (absent until the
subscribe frame carried one) and whether the ws transport is OPEN. -/
structure Client where
  group : Option String
  wsOpen : Bool
  deriving DecidableEq

/-- The fan-out loop shared by both handlers: every client whose `group`
equals the message's group and whose socket is OPEN gets one send; the
result lists the receiving client ids in map order. -/
def broadcastTargets (g : Option String) (cl : List (String × Client)) : List String :=
  (cl.filter (fun p => p.2.group == g && p.2.wsOpen)).map (fun p => p.1)

/-- Outcome of `POST /api/messages`: 201 with the finalized message, or
500 when `saveMessage` threw. -/
inductive PostResult where
  | created (m : Message)
  | serverError
  deriving DecidableEq

/-- `POST /api/messages` handler (both variants): build the message from
the spread body plus fresh `id`/`timestamp` (no validation of any
field), persist, broadcast, answer 201 with the message; if persistence
throws, answer 500 and broadcast nothing. -/
def postMessage (body : RawMessage) (newId : String) (ts : Nat) (writeOk : Bool)
    (log : List Message) (cl : List (String × Client)) :
    PostResult × List Message × List String :=
  let m := restFinalize body newId ts
  match saveMessage writeOk m log with
  | Except.ok log2 => (PostResult.created m, log2, broadcastTargets m.group cl)
  | Except.error _ => (PostResult.serverError, log, [])

/-- ws `message` frame handler: finalize with `status: 'delivered'`,
persist, broadcast; a thrown error is caught, dropping the frame. -/
def wsHandleMessage (body : RawMessage) (newId : String) (ts : Nat) (writeOk : Bool)
    (log : List Message) (cl : List (String × Client)) :
    Option Message × List Message × List String :=
  let m := wsFinalize body newId ts
  match saveMessage writeOk m log with
  | Except.ok log2 => (some m, log2, broadcastTargets m.group cl)
  | Except.error _ => (none, log, [])

/-! Concrete states used by counterexamples and witnesses. -/

/-- A store holding one variant-1-issued entry for `a@x.com`. -/
def mapA : OtpMap := setEntry "a@x.com" ⟨"123456", 1000, some 0⟩ emptyOtpMap

/-- In-memory and durable snapshots agree on `mapA`. -/
def stA : OtpState := ⟨mapA, mapA⟩

/-- A store holding one variant-2-issued entry (no attempts field). -/
def mapB : OtpMap := setEntry "a@x.com" ⟨"123456", 1000, none⟩ emptyOtpMap

/-- In-memory and durable snapshots agree on `mapB`. -/
def stB : OtpState := ⟨mapB, mapB⟩

/-- The state produced by variant 1's wrong-code branch below the lock
limit: the entry's `attempts` is bumped in memory, nothing else moves. -/
def bump1 (email : String) (e : OtpEntry) (s : OtpState) : OtpState :=
  { s with mem := setEntry email ⟨e.otp, e.expiresAt, some (e.attempts.getD 0 + 1)⟩ s.mem }

/-- A valid message body aimed at group `lobby`. -/
def bodyLobby : RawMessage := ⟨some "lobby", some "hi", none, none, none⟩

/-- A message body with no `group` field at all. -/
def bodyNoGroup : RawMessage := ⟨none, some "hi", none, none, none⟩

/-- Two concrete finalized messages for the `lobby` group. -/
def m1W : Message := ⟨"id1", some "lobby", some "hi", none, none, 5, none⟩

/-- Second concrete finalized message for the `lobby` group. -/
def m2W : Message := ⟨"id2", some "lobby", some "yo", none, none, 6, none⟩

/-- Two live clients: one subscribed to `G`, one to `H`, both open. -/
def clW : List (String × Client) := [("c1", ⟨some "G", true⟩), ("c2", ⟨some "H", true⟩)]

/-! Small facts about the state operations. -/

@[simp] theorem saveOtps_mem (w : Bool) (s : OtpState) : (saveOtps w s).mem = s.mem := by
  cases w <;> rfl

theorem saveOtps_false (s : OtpState) : saveOtps false s = s := rfl

@[simp] theorem delEntry_self (k : String) (m : OtpMap) : delEntry k m k = none := by
  simp [delEntry]

@[simp] theorem setEntry_self (k : String) (v : OtpEntry) (m : OtpMap) :
    setEntry k v m k = some v := by
  simp [setEntry]

/-- Claim C7: for an entry whose `expiresAt` has passed, `verify`
returns EXPIRED and deletes the entry, and a subsequent `verify` returns
NOT_FOUND — in both handler variants. -/
theorem spec_C7_expired_then_notFound (s : OtpState) (email code1 code2 : String)
    (e : OtpEntry) (now1 now2 : Nat) (w1 w2 : Bool)
    (he : email ≠ "") (hc1 : code1 ≠ "") (hc2 : code2 ≠ "")
    (hst : s.mem email = some e) (hexp : e.expiresAt < now1) :
    (verifyOtp1 now1 email code1 w1 s).1 = VerifyResult.expired ∧
    (verifyOtp1 now1 email code1 w1 s).2.mem email = none ∧
    (verifyOtp1 now2 email code2 w2 (verifyOtp1 now1 email code1 w1 s).2).1 =
      VerifyResult.notFound ∧
    (verifyOtp2 now1 email code1 w1 s).1 = VerifyResult.expired ∧
    (verifyOtp2 now1 email code1 w1 s).2.mem email = none ∧
    (verifyOtp2 now2 email code2 w2 (verifyOtp2 now1 email code1 w1 s).2).1 =
      VerifyResult.notFound := by
  have h1 : verifyOtp1 now1 email code1 w1 s =
      (VerifyResult.expired, saveOtps w1 { s with mem := delEntry email s.mem }) := by
    simp [verifyOtp1, he, hc1, hst, hexp]
  have h2 : verifyOtp2 now1 email code1 w1 s =
      (VerifyResult.expired, saveOtps w1 { s with mem := delEntry email s.mem }) := by
    simp [verifyOtp2, he, hc1, hst, hexp]
  refine ⟨by rw [h1], by rw [h1]; simp, ?_, by rw [h2], by rw [h2]; simp, ?_⟩
  · rw [h1]
    simp [verifyOtp2, verifyOtp1, he, hc2]
  · rw [h2]
    simp [verifyOtp2, he, hc2]

/-- Witness for C7 at a concrete expired entry. -/
theorem spec_C7_witness :
    (verifyOtp1 2000 "a@x.com" "111111" true stA).1 = VerifyResult.expired ∧
    (verifyOtp1 2000 "a@x.com" "111111" true stA).2.mem "a@x.com" = none ∧
    (verifyOtp1 2500 "a@x.com" "111111" true
        (verifyOtp1 2000 "a@x.com" "111111" true stA).2).1 = VerifyResult.notFound ∧
    (verifyOtp2 2000 "a@x.com" "111111" true stA).1 = VerifyResult.expired ∧
    (verifyOtp2 2000 "a@x.com" "111111" true stA).2.mem "a@x.com" = none ∧
    (verifyOtp2 2500 "a@x.com" "111111" true
        (verifyOtp2 2000 "a@x.com" "111111" true stA).2).1 = VerifyResult.notFound :=
  spec_C7_expired_then_notFound stA "a@x.com" "111111" "111111" ⟨"123456", 1000, some 0⟩
    2000 2500 true true (by decide) (by decide) (by decide) (by decide) (by decide)

/-! Reduction lemmas for variant 1's `verify-otp` branches. -/

theorem verifyOtp1_notFound (now : Nat) (email code : String) (w : Bool) (s : OtpState)
    (he : email ≠ "") (hc : code ≠ "") (hst : s.mem email = none) :
    verifyOtp1 now email code w s = (VerifyResult.notFound, s) := by
  simp [verifyOtp1, he, hc, hst]

theorem verifyOtp1_wrong_low (now : Nat) (email wrong : String) (w : Bool) (s : OtpState)
    (e : OtpEntry) (he : email ≠ "") (hw : wrong ≠ "") (hst : s.mem email = some e)
    (ht : ¬ e.expiresAt < now) (hne : e.otp ≠ wrong)
    (hlow : ¬ 3 ≤ e.attempts.getD 0 + 1) :
    verifyOtp1 now email wrong w s = (VerifyResult.invalid, bump1 email e s) := by
  simp [verifyOtp1, he, hw, hst, ht, hne, hlow, bump1]

theorem verifyOtp1_wrong_locked (now : Nat) (email wrong : String) (w : Bool) (s : OtpState)
    (e : OtpEntry) (he : email ≠ "") (hw : wrong ≠ "") (hst : s.mem email = some e)
    (ht : ¬ e.expiresAt < now) (hne : e.otp ≠ wrong)
    (hhi : 3 ≤ e.attempts.getD 0 + 1) :
    verifyOtp1 now email wrong w s =
      (VerifyResult.locked, saveOtps w { s with mem := delEntry email s.mem }) := by
  simp [verifyOtp1, he, hw, hst, ht, hne, hhi]

theorem bump1_mem (email : String) (e : OtpEntry) (s : OtpState) :
    (bump1 email e s).mem email = some ⟨e.otp, e.expiresAt, some (e.attempts.getD 0 + 1)⟩ := by
  simp [bump1]

theorem bump1_disk (email : String) (e : OtpEntry) (s : OtpState) :
    (bump1 email e s).disk = s.disk := rfl

/-- Claim C1 counterexample: in variant 2's handler a third consecutive
wrong code still answers "Invalid OTP" — never LOCKED, the entry is not
deleted, and a fourth call is again INVALID rather than NOT_FOUND. -/
theorem spec_C1_counterexample :
    (verifyOtp2 10 "a@x.com" "000000" true stA).1 = VerifyResult.invalid ∧
    (verifyOtp2 10 "a@x.com" "000000" true
      (verifyOtp2 10 "a@x.com" "000000" true stA).2).1 = VerifyResult.invalid ∧
    (verifyOtp2 10 "a@x.com" "000000" true (verifyOtp2 10 "a@x.com" "000000" true
      (verifyOtp2 10 "a@x.com" "000000" true stA).2).2).1 ≠ VerifyResult.locked ∧
    (verifyOtp2 10 "a@x.com" "000000" true (verifyOtp2 10 "a@x.com" "000000" true
      (verifyOtp2 10 "a@x.com" "000000" true stA).2).2).1 = VerifyResult.invalid ∧
    (verifyOtp2 10 "a@x.com" "000000" true (verifyOtp2 10 "a@x.com" "000000" true
      (verifyOtp2 10 "a@x.com" "000000" true stA).2).2).2.mem "a@x.com" =
        some ⟨"123456", 1000, some 0⟩ ∧
    (verifyOtp2 10 "a@x.com" "000000" true (verifyOtp2 10 "a@x.com" "000000" true
      (verifyOtp2 10 "a@x.com" "000000" true (verifyOtp2 10 "a@x.com" "000000" true
        stA).2).2).2).1 ≠ VerifyResult.notFound := by
  decide

/-- Claim C1 (amended): variant 1's handler behaves as the claim states
— three wrong codes on a fresh entry give INVALID, INVALID, LOCKED
(deleting the entry) and any fourth call NOT_FOUND — while variant 2's
handler answers INVALID to every wrong code and never mutates state. -/
theorem spec_C1_amended (s : OtpState) (email wrong any : String) (e : OtpEntry)
    (now1 now2 now3 now4 : Nat) (w1 w2 w3 w4 : Bool)
    (he : email ≠ "") (hw : wrong ≠ "") (ha : any ≠ "")
    (hst : s.mem email = some e) (h0 : e.attempts.getD 0 = 0)
    (t1 : ¬ e.expiresAt < now1) (t2 : ¬ e.expiresAt < now2) (t3 : ¬ e.expiresAt < now3)
    (hne : e.otp ≠ wrong) :
    (verifyOtp1 now1 email wrong w1 s).1 = VerifyResult.invalid ∧
    (verifyOtp1 now2 email wrong w2 (verifyOtp1 now1 email wrong w1 s).2).1 =
      VerifyResult.invalid ∧
    (verifyOtp1 now3 email wrong w3 (verifyOtp1 now2 email wrong w2
      (verifyOtp1 now1 email wrong w1 s).2).2).1 = VerifyResult.locked ∧
    (verifyOtp1 now3 email wrong w3 (verifyOtp1 now2 email wrong w2
      (verifyOtp1 now1 email wrong w1 s).2).2).2.mem email = none ∧
    (verifyOtp1 now4 email any w4 (verifyOtp1 now3 email wrong w3
      (verifyOtp1 now2 email wrong w2 (verifyOtp1 now1 email wrong w1 s).2).2).2).1 =
      VerifyResult.notFound ∧
    verifyOtp2 now1 email wrong w1 s = (VerifyResult.invalid, s) := by
  have h1 : verifyOtp1 now1 email wrong w1 s = (VerifyResult.invalid, bump1 email e s) :=
    verifyOtp1_wrong_low now1 email wrong w1 s e he hw hst t1 hne (by rw [h0]; decide)
  have hm1 : (bump1 email e s).mem email = some ⟨e.otp, e.expiresAt, some 1⟩ := by
    rw [bump1_mem, h0]
  have h2 : verifyOtp1 now2 email wrong w2 (bump1 email e s) =
      (VerifyResult.invalid, bump1 email ⟨e.otp, e.expiresAt, some 1⟩ (bump1 email e s)) :=
    verifyOtp1_wrong_low now2 email wrong w2 (bump1 email e s)
      ⟨e.otp, e.expiresAt, some 1⟩ he hw hm1 t2 hne (by simp)
  have hm2 : (bump1 email ⟨e.otp, e.expiresAt, some 1⟩ (bump1 email e s)).mem email =
      some ⟨e.otp, e.expiresAt, some 2⟩ := by
    simp [bump1_mem]
  have h3 : verifyOtp1 now3 email wrong w3
      (bump1 email ⟨e.otp, e.expiresAt, some 1⟩ (bump1 email e s)) =
      (VerifyResult.locked, saveOtps w3
        { bump1 email ⟨e.otp, e.expiresAt, some 1⟩ (bump1 email e s) with
          mem := delEntry email (bump1 email ⟨e.otp, e.expiresAt, some 1⟩
            (bump1 email e s)).mem }) :=
    verifyOtp1_wrong_locked now3 email wrong w3
      (bump1 email ⟨e.otp, e.expiresAt, some 1⟩ (bump1 email e s))
      ⟨e.otp, e.expiresAt, some 2⟩ he hw hm2 t3 hne (by simp)
  have hm3 : (saveOtps w3 { bump1 email ⟨e.otp, e.expiresAt, some 1⟩ (bump1 email e s) with
      mem := delEntry email (bump1 email ⟨e.otp, e.expiresAt, some 1⟩
        (bump1 email e s)).mem }).mem email = none := by
    rw [saveOtps_mem]
    simp
  have h4 : verifyOtp1 now4 email any w4 (saveOtps w3
      { bump1 email ⟨e.otp, e.expiresAt, some 1⟩ (bump1 email e s) with
        mem := delEntry email (bump1 email ⟨e.otp, e.expiresAt, some 1⟩
          (bump1 email e s)).mem }) = (VerifyResult.notFound, saveOtps w3
      { bump1 email ⟨e.otp, e.expiresAt, some 1⟩ (bump1 email e s) with
        mem := delEntry email (bump1 email ⟨e.otp, e.expiresAt, some 1⟩
          (bump1 email e s)).mem }) :=
    verifyOtp1_notFound now4 email any w4 _ he ha hm3
  have hv2 : verifyOtp2 now1 email wrong w1 s = (VerifyResult.invalid, s) := by
    simp [verifyOtp2, he, hw, hst, t1, hne]
  refine ⟨by rw [h1], ?_, ?_, ?_, ?_, hv2⟩
  · rw [h1]
    rw [h2]
  · rw [h1, h2, h3]
  · rw [h1, h2, h3]
    exact hm3
  · rw [h1, h2, h3, h4]

/-- Witness for the amended C1 at a concrete fresh entry. -/
theorem spec_C1_witness :
    (verifyOtp1 10 "a@x.com" "000000" true stA).1 = VerifyResult.invalid ∧
    (verifyOtp1 20 "a@x.com" "000000" true (verifyOtp1 10 "a@x.com" "000000" true stA).2).1 =
      VerifyResult.invalid ∧
    (verifyOtp1 30 "a@x.com" "000000" true (verifyOtp1 20 "a@x.com" "000000" true
      (verifyOtp1 10 "a@x.com" "000000" true stA).2).2).1 = VerifyResult.locked ∧
    (verifyOtp1 30 "a@x.com" "000000" true (verifyOtp1 20 "a@x.com" "000000" true
      (verifyOtp1 10 "a@x.com" "000000" true stA).2).2).2.mem "a@x.com" = none ∧
    (verifyOtp1 40 "a@x.com" "654321" true (verifyOtp1 30 "a@x.com" "000000" true
      (verifyOtp1 20 "a@x.com" "000000" true (verifyOtp1 10 "a@x.com" "000000" true
        stA).2).2).2).1 = VerifyResult.notFound ∧
    verifyOtp2 10 "a@x.com" "000000" true stA = (VerifyResult.invalid, stA) :=
  spec_C1_amended stA "a@x.com" "000000" "654321" ⟨"123456", 1000, some 0⟩
    10 20 30 40 true true true true (by decide) (by decide) (by decide) (by decide)
    (by decide) (by decide) (by decide) (by decide) (by decide)

theorem verifyOtp1_correct (now : Nat) (email code : String) (w : Bool) (s : OtpState)
    (e : OtpEntry) (he : email ≠ "") (hc : code ≠ "") (hst : s.mem email = some e)
    (ht : ¬ e.expiresAt < now) (hok : e.otp = code) :
    verifyOtp1 now email code w s =
      (VerifyResult.verified, saveOtps w { s with mem := delEntry email s.mem }) := by
  simp [verifyOtp1, he, hc, hst, ht, hok]

theorem verifyOtp2_correct (now : Nat) (email code : String) (w : Bool) (s : OtpState)
    (e : OtpEntry) (he : email ≠ "") (hc : code ≠ "") (hst : s.mem email = some e)
    (ht : ¬ e.expiresAt < now) (hok : e.otp = code) :
    verifyOtp2 now email code w s =
      (VerifyResult.verified, saveOtps w { s with mem := delEntry email s.mem }) := by
  simp [verifyOtp2, he, hc, hst, ht, hok]

theorem verifyOtp2_wrong (now : Nat) (email wrong : String) (w : Bool) (s : OtpState)
    (e : OtpEntry) (he : email ≠ "") (hw : wrong ≠ "") (hst : s.mem email = some e)
    (ht : ¬ e.expiresAt < now) (hne : e.otp ≠ wrong) :
    verifyOtp2 now email wrong w s = (VerifyResult.invalid, s) := by
  simp [verifyOtp2, he, hw, hst, ht, hne]

theorem sendOtp1_state (now : Nat) (email newCode : String) (w mOk : Bool) (s : OtpState)
    (hv : validEmail email = true) :
    (sendOtp1 now email newCode w mOk s).2 =
      saveOtps w { s with mem := setEntry email ⟨newCode, now + 300000, some 0⟩ s.mem } := by
  cases mOk <;> simp [sendOtp1, hv]

theorem sendOtp2_state (now : Nat) (email newCode : String) (w mOk : Bool) (s : OtpState)
    (he : email ≠ "") :
    (sendOtp2 now email newCode w mOk s).2 =
      saveOtps w { s with mem := setEntry email ⟨newCode, now + 300000, none⟩ s.mem } := by
  cases mOk <;> simp [sendOtp2, he]

/-- Claim C5 counterexample: variant 1's wrong-code branch below the
limit returns INVALID without calling `saveOtps` — the in-memory entry
now has `attempts = 1` while the durable snapshot still has
`attempts = 0`, so the durable snapshot differs from memory. -/
theorem spec_C5_counterexample :
    (verifyOtp1 10 "a@x.com" "000000" true stA).1 = VerifyResult.invalid ∧
    (verifyOtp1 10 "a@x.com" "000000" true stA).2.mem "a@x.com" =
      some ⟨"123456", 1000, some 1⟩ ∧
    (verifyOtp1 10 "a@x.com" "000000" true stA).2.disk "a@x.com" =
      some ⟨"123456", 1000, some 0⟩ := by
  decide

/-- Claim C5 (amended): on a wrong code below the lock limit, variant 1
returns INVALID with `attempts` incremented only in memory — the
durable OTP snapshot is left untouched — and variant 2 returns INVALID
with no state change at all (it tracks no attempts). -/
theorem spec_C5_amended (s : OtpState) (email wrong : String) (e : OtpEntry)
    (now : Nat) (w : Bool)
    (he : email ≠ "") (hw : wrong ≠ "") (hst : s.mem email = some e)
    (ht : ¬ e.expiresAt < now) (hne : e.otp ≠ wrong)
    (hlow : ¬ 3 ≤ e.attempts.getD 0 + 1) :
    (verifyOtp1 now email wrong w s).1 = VerifyResult.invalid ∧
    (verifyOtp1 now email wrong w s).2.disk = s.disk ∧
    (verifyOtp1 now email wrong w s).2.mem email =
      some ⟨e.otp, e.expiresAt, some (e.attempts.getD 0 + 1)⟩ ∧
    verifyOtp2 now email wrong w s = (VerifyResult.invalid, s) := by
  have h1 := verifyOtp1_wrong_low now email wrong w s e he hw hst ht hne hlow
  exact ⟨by rw [h1], by rw [h1]; exact bump1_disk email e s,
    by rw [h1]; exact bump1_mem email e s,
    verifyOtp2_wrong now email wrong w s e he hw hst ht hne⟩

/-- Witness for the amended C5 at a concrete entry. -/
theorem spec_C5_witness :
    (verifyOtp1 10 "a@x.com" "000000" true stA).1 = VerifyResult.invalid ∧
    (verifyOtp1 10 "a@x.com" "000000" true stA).2.disk = stA.disk ∧
    (verifyOtp1 10 "a@x.com" "000000" true stA).2.mem "a@x.com" =
      some ⟨"123456", 1000, some 1⟩ ∧
    verifyOtp2 10 "a@x.com" "000000" true stA = (VerifyResult.invalid, stA) :=
  spec_C5_amended stA "a@x.com" "000000" ⟨"123456", 1000, some 0⟩ 10 true
    (by decide) (by decide) (by decide) (by decide) (by decide) (by decide)

/-- Claim C3 counterexample: with the durable write failing, variant 1's
verify of the correct code still answers success (VERIFIED) — the entry
is gone from memory but the durable snapshot still holds it, so the
caller observed success although the durable write did not complete. -/
theorem spec_C3_counterexample :
    (verifyOtp1 10 "a@x.com" "123456" false stA).1 = VerifyResult.verified ∧
    (verifyOtp1 10 "a@x.com" "123456" false stA).2.mem "a@x.com" = none ∧
    (verifyOtp1 10 "a@x.com" "123456" false stA).2.disk "a@x.com" =
      some ⟨"123456", 1000, some 0⟩ := by
  decide

/-- Claim C3 (amended): `saveOtps` swallows write failures, so every OTP
operation reports success even when its durable write failed — verify
answers VERIFIED and issue answers 200 with the disk snapshot unchanged
— whereas `saveMessage` rethrows, so a message publish does fail (500,
nothing appended) when its write fails. -/
theorem spec_C3_amended (s : OtpState) (email code newCode : String) (e : OtpEntry)
    (now : Nat) (body : RawMessage) (newId : String) (ts : Nat) (log : List Message)
    (cl : List (String × Client)) (m : Message)
    (he : email ≠ "") (hc : code ≠ "") (hst : s.mem email = some e)
    (ht : ¬ e.expiresAt < now) (hok : e.otp = code) (hv : validEmail email = true) :
    (verifyOtp1 now email code false s).1 = VerifyResult.verified ∧
    (verifyOtp1 now email code false s).2.disk = s.disk ∧
    (verifyOtp2 now email code false s).1 = VerifyResult.verified ∧
    (verifyOtp2 now email code false s).2.disk = s.disk ∧
    (sendOtp1 now email newCode false true s).1 = SendResult.success ∧
    (sendOtp1 now email newCode false true s).2.disk = s.disk ∧
    saveMessage false m log = Except.error () ∧
    postMessage body newId ts false log cl = (PostResult.serverError, log, []) := by
  have h1 := verifyOtp1_correct now email code false s e he hc hst ht hok
  have h2 := verifyOtp2_correct now email code false s e he hc hst ht hok
  refine ⟨by rw [h1], by rw [h1]; rfl, by rw [h2], by rw [h2]; rfl, ?_, ?_, rfl, ?_⟩
  · simp [sendOtp1, hv]
  · rw [sendOtp1_state now email newCode false true s hv]; rfl
  · simp [postMessage, saveMessage]

/-- Witness for the amended C3 at a concrete entry and message. -/
theorem spec_C3_witness :
    (verifyOtp1 10 "a@x.com" "123456" false stA).1 = VerifyResult.verified ∧
    (verifyOtp1 10 "a@x.com" "123456" false stA).2.disk = stA.disk ∧
    (verifyOtp2 10 "a@x.com" "123456" false stA).1 = VerifyResult.verified ∧
    (verifyOtp2 10 "a@x.com" "123456" false stA).2.disk = stA.disk ∧
    (sendOtp1 10 "a@x.com" "222222" false true stA).1 = SendResult.success ∧
    (sendOtp1 10 "a@x.com" "222222" false true stA).2.disk = stA.disk ∧
    saveMessage false m1W [] = Except.error () ∧
    postMessage bodyLobby "id1" 5 false [] [] = (PostResult.serverError, [], []) :=
  spec_C3_amended stA "a@x.com" "123456" "222222" ⟨"123456", 1000, some 0⟩ 10
    bodyLobby "id1" 5 [] [] m1W (by decide) (by decide) (by decide) (by decide)
    (by decide) (by decide)

/-- Claim C6 counterexample: variant 2's `send-otp` stores the fresh
entry with no `attempts` field at all, not `attempts = 0`. -/
theorem spec_C6_counterexample :
    (sendOtp2 10 "a@x.com" "654321" true true stB).1 = SendResult.success ∧
    (sendOtp2 10 "a@x.com" "654321" true true stB).2.mem "a@x.com" =
      some ⟨"654321", 300010, none⟩ ∧
    (⟨"654321", 300010, none⟩ : OtpEntry).attempts ≠ some 0 := by
  decide

/-- Claim C6 (amended): `issue(e)` replaces any existing entry for `e`
with a fresh one having `expiresAt = now + 300000` — with `attempts = 0`
in variant 1, but with no `attempts` field in variant 2 — and when the
freshly generated code differs from the old one, the old unverified
code thereafter verifies as INVALID while the entry lives (NOT_FOUND
once it is gone), never VERIFIED. -/
theorem spec_C6_amended (s : OtpState) (email newCode : String) (eOld : OtpEntry)
    (now now2 : Nat) (w w2 mOk : Bool)
    (hv : validEmail email = true) (he : email ≠ "") (hold : eOld.otp ≠ "")
    (hst : s.mem email = some eOld) (hcol : newCode ≠ eOld.otp)
    (ht2 : ¬ now + 300000 < now2) :
    (sendOtp1 now email newCode w mOk s).2.mem email =
      some ⟨newCode, now + 300000, some 0⟩ ∧
    (sendOtp2 now email newCode w mOk s).2.mem email =
      some ⟨newCode, now + 300000, none⟩ ∧
    (verifyOtp1 now2 email eOld.otp w2 (sendOtp1 now email newCode w mOk s).2).1 =
      VerifyResult.invalid ∧
    (verifyOtp1 now2 email eOld.otp w2 (sendOtp1 now email newCode w mOk s).2).1 ≠
      VerifyResult.verified ∧
    (verifyOtp2 now2 email eOld.otp w2 (sendOtp2 now email newCode w mOk s).2).1 =
      VerifyResult.invalid ∧
    (verifyOtp2 now2 email eOld.otp w2 (sendOtp2 now email newCode w mOk s).2).1 ≠
      VerifyResult.verified := by
  have hs1 := sendOtp1_state now email newCode w mOk s hv
  have hs2 := sendOtp2_state now email newCode w mOk s he
  have hm1 : (sendOtp1 now email newCode w mOk s).2.mem email =
      some ⟨newCode, now + 300000, some 0⟩ := by
    rw [hs1, saveOtps_mem]
    simp
  have hm2 : (sendOtp2 now email newCode w mOk s).2.mem email =
      some ⟨newCode, now + 300000, none⟩ := by
    rw [hs2, saveOtps_mem]
    simp
  have hu1 : verifyOtp1 now2 email eOld.otp w2 (sendOtp1 now email newCode w mOk s).2 =
      (VerifyResult.invalid,
        bump1 email ⟨newCode, now + 300000, some 0⟩ (sendOtp1 now email newCode w mOk s).2) :=
    verifyOtp1_wrong_low now2 email eOld.otp w2 (sendOtp1 now email newCode w mOk s).2
      ⟨newCode, now + 300000, some 0⟩ he hold hm1 ht2 hcol (by simp)
  have hu2 : verifyOtp2 now2 email eOld.otp w2 (sendOtp2 now email newCode w mOk s).2 =
      (VerifyResult.invalid, (sendOtp2 now email newCode w mOk s).2) :=
    verifyOtp2_wrong now2 email eOld.otp w2 (sendOtp2 now email newCode w mOk s).2
      ⟨newCode, now + 300000, none⟩ he hold hm2 ht2 hcol
  refine ⟨hm1, hm2, by rw [hu1], ?_, by rw [hu2], ?_⟩
  · rw [hu1]
    exact fun hX => VerifyResult.noConfusion hX
  · rw [hu2]
    exact fun hX => VerifyResult.noConfusion hX

/-- Witness for the amended C6: reissue over an existing entry, then try
the old code against both variants. -/
theorem spec_C6_witness :
    (sendOtp1 10 "a@x.com" "654321" true true stA).2.mem "a@x.com" =
      some ⟨"654321", 300010, some 0⟩ ∧
    (sendOtp2 10 "a@x.com" "654321" true true stA).2.mem "a@x.com" =
      some ⟨"654321", 300010, none⟩ ∧
    (verifyOtp1 20 "a@x.com" "123456" true (sendOtp1 10 "a@x.com" "654321" true true stA).2).1 =
      VerifyResult.invalid ∧
    (verifyOtp1 20 "a@x.com" "123456" true (sendOtp1 10 "a@x.com" "654321" true true stA).2).1 ≠
      VerifyResult.verified ∧
    (verifyOtp2 20 "a@x.com" "123456" true (sendOtp2 10 "a@x.com" "654321" true true stA).2).1 =
      VerifyResult.invalid ∧
    (verifyOtp2 20 "a@x.com" "123456" true (sendOtp2 10 "a@x.com" "654321" true true stA).2).1 ≠
      VerifyResult.verified :=
  spec_C6_amended stA "a@x.com" "654321" ⟨"123456", 1000, some 0⟩ 10 20 true true true
    (by decide) (by decide) (by decide) (by decide) (by decide) (by decide)

/-- Claim C10: `send-otp` mutates and persists the OTP store before the
mail send; on a mail failure the caller gets 500 while the fresh entry
is live in memory and on disk, and a later verify with the fresh code
still answers VERIFIED — in both variants. -/
theorem spec_C10_issue_survives_mail_failure (s : OtpState) (email code : String)
    (now now2 : Nat) (w2 : Bool)
    (hv : validEmail email = true) (he : email ≠ "") (hc : code ≠ "")
    (ht2 : ¬ now + 300000 < now2) :
    (sendOtp1 now email code true false s).1 = SendResult.sendFailure ∧
    (sendOtp1 now email code true false s).2.mem email = some ⟨code, now + 300000, some 0⟩ ∧
    (sendOtp1 now email code true false s).2.disk email = some ⟨code, now + 300000, some 0⟩ ∧
    (verifyOtp1 now2 email code w2 (sendOtp1 now email code true false s).2).1 =
      VerifyResult.verified ∧
    (sendOtp2 now email code true false s).1 = SendResult.sendFailure ∧
    (sendOtp2 now email code true false s).2.mem email = some ⟨code, now + 300000, none⟩ ∧
    (sendOtp2 now email code true false s).2.disk email = some ⟨code, now + 300000, none⟩ ∧
    (verifyOtp2 now2 email code w2 (sendOtp2 now email code true false s).2).1 =
      VerifyResult.verified := by
  have hs1 := sendOtp1_state now email code true false s hv
  have hs2 := sendOtp2_state now email code true false s he
  have hm1 : (sendOtp1 now email code true false s).2.mem email =
      some ⟨code, now + 300000, some 0⟩ := by
    rw [hs1, saveOtps_mem]
    simp
  have hm2 : (sendOtp2 now email code true false s).2.mem email =
      some ⟨code, now + 300000, none⟩ := by
    rw [hs2, saveOtps_mem]
    simp
  refine ⟨by simp [sendOtp1, hv], hm1, ?_, ?_, by simp [sendOtp2, he], hm2, ?_, ?_⟩
  · rw [hs1]
    simp [saveOtps, setEntry_self]
  · rw [verifyOtp1_correct now2 email code w2 (sendOtp1 now email code true false s).2
      ⟨code, now + 300000, some 0⟩ he hc hm1 ht2 rfl]
  · rw [hs2]
    simp [saveOtps, setEntry_self]
  · rw [verifyOtp2_correct now2 email code w2 (sendOtp2 now email code true false s).2
      ⟨code, now + 300000, none⟩ he hc hm2 ht2 rfl]

/-- Witness for C10 at a concrete issue whose mail send fails. -/
theorem spec_C10_witness :
    (sendOtp1 10 "a@x.com" "777777" true false stA).1 = SendResult.sendFailure ∧
    (sendOtp1 10 "a@x.com" "777777" true false stA).2.mem "a@x.com" =
      some ⟨"777777", 300010, some 0⟩ ∧
    (sendOtp1 10 "a@x.com" "777777" true false stA).2.disk "a@x.com" =
      some ⟨"777777", 300010, some 0⟩ ∧
    (verifyOtp1 20 "a@x.com" "777777" true (sendOtp1 10 "a@x.com" "777777" true false stA).2).1 =
      VerifyResult.verified ∧
    (sendOtp2 10 "a@x.com" "777777" true false stA).1 = SendResult.sendFailure ∧
    (sendOtp2 10 "a@x.com" "777777" true false stA).2.mem "a@x.com" =
      some ⟨"777777", 300010, none⟩ ∧
    (sendOtp2 10 "a@x.com" "777777" true false stA).2.disk "a@x.com" =
      some ⟨"777777", 300010, none⟩ ∧
    (verifyOtp2 20 "a@x.com" "777777" true (sendOtp2 10 "a@x.com" "777777" true false stA).2).1 =
      VerifyResult.verified :=
  spec_C10_issue_survives_mail_failure stA "a@x.com" "777777" 10 20 true
    (by decide) (by decide) (by decide) (by decide)

/-- Claim C2 counterexample: `POST /api/messages` spreads the body and
adds only `id` and `timestamp`; for the intent `{group:"lobby",
text:"hi"}` the returned and persisted message carries no `status`
field, not `status = DELIVERED`. -/
theorem spec_C2_counterexample :
    (postMessage bodyLobby "id1" 5 true [] []).1 =
      PostResult.created ⟨"id1", some "lobby", some "hi", none, none, 5, none⟩ ∧
    (⟨"id1", some "lobby", some "hi", none, none, 5, none⟩ : Message).status ≠
      some "delivered" := by
  decide

/-- Claim C2 (amended): on the realtime path the finalized message gets
a non-empty `id`, the server timestamp and `status = 'delivered'`, and
is appended to the log; on the REST path it gets the non-empty `id` and
timestamp and is appended, but `status` stays whatever the caller put in
the body (absent when not supplied). -/
theorem spec_C2_amended (body : RawMessage) (newId : String) (ts : Nat)
    (log : List Message) (cl : List (String × Client)) (hid : newId ≠ "") :
    (wsHandleMessage body newId ts true log cl).1 = some (wsFinalize body newId ts) ∧
    (wsFinalize body newId ts).id ≠ "" ∧
    (wsFinalize body newId ts).timestamp = ts ∧
    (wsFinalize body newId ts).status = some "delivered" ∧
    (wsHandleMessage body newId ts true log cl).2.1 = log ++ [wsFinalize body newId ts] ∧
    (postMessage body newId ts true log cl).1 =
      PostResult.created (restFinalize body newId ts) ∧
    (restFinalize body newId ts).id ≠ "" ∧
    (restFinalize body newId ts).timestamp = ts ∧
    (restFinalize body newId ts).status = body.status ∧
    (postMessage body newId ts true log cl).2.1 = log ++ [restFinalize body newId ts] := by
  refine ⟨?_, hid, rfl, rfl, ?_, ?_, hid, rfl, rfl, ?_⟩ <;>
    simp [wsHandleMessage, postMessage, saveMessage]

/-- Witness for the amended C2 at the lobby intent. -/
theorem spec_C2_witness :
    (wsHandleMessage bodyLobby "id1" 5 true [] []).1 = some (wsFinalize bodyLobby "id1" 5) ∧
    (wsFinalize bodyLobby "id1" 5).id ≠ "" ∧
    (wsFinalize bodyLobby "id1" 5).timestamp = 5 ∧
    (wsFinalize bodyLobby "id1" 5).status = some "delivered" ∧
    (wsHandleMessage bodyLobby "id1" 5 true [] []).2.1 = [] ++ [wsFinalize bodyLobby "id1" 5] ∧
    (postMessage bodyLobby "id1" 5 true [] []).1 =
      PostResult.created (restFinalize bodyLobby "id1" 5) ∧
    (restFinalize bodyLobby "id1" 5).id ≠ "" ∧
    (restFinalize bodyLobby "id1" 5).timestamp = 5 ∧
    (restFinalize bodyLobby "id1" 5).status = bodyLobby.status ∧
    (postMessage bodyLobby "id1" 5 true [] []).2.1 = [] ++ [restFinalize bodyLobby "id1" 5] :=
  spec_C2_amended bodyLobby "id1" 5 [] [] (by decide)

/-- Claim C4 counterexample: a body with no `group` at all is accepted:
`POST /api/messages` answers 201 and appends the message to the durable
log — no validation error, no rejection. -/
theorem spec_C4_counterexample :
    (postMessage bodyNoGroup "id1" 5 true [] []).1 =
      PostResult.created ⟨"id1", none, some "hi", none, none, 5, none⟩ ∧
    (postMessage bodyNoGroup "id1" 5 true [] []).2.1 =
      [⟨"id1", none, some "hi", none, none, 5, none⟩] := by
  decide

/-- Claim C4 (amended): the REST publish path performs no validation on
`group`: a publish whose body has a missing or empty `group` is not
rejected — the message is appended to the durable store and answered
with 201 like any other. -/
theorem spec_C4_amended (body : RawMessage) (newId : String) (ts : Nat)
    (log : List Message) (cl : List (String × Client))
    (hg : body.group = none ∨ body.group = some "") :
    (postMessage body newId ts true log cl).1 =
      PostResult.created (restFinalize body newId ts) ∧
    (postMessage body newId ts true log cl).2.1 = log ++ [restFinalize body newId ts] := by
  constructor <;> simp [postMessage, saveMessage]

/-- Witness for the amended C4 at a group-less body. -/
theorem spec_C4_witness :
    (postMessage bodyNoGroup "id1" 5 true [] []).1 =
      PostResult.created (restFinalize bodyNoGroup "id1" 5) ∧
    (postMessage bodyNoGroup "id1" 5 true [] []).2.1 =
      [] ++ [restFinalize bodyNoGroup "id1" 5] :=
  spec_C4_amended bodyNoGroup "id1" 5 [] [] (by decide)

/-- Claim C8: appending `m1` and then `m2` for the same group gives a
history read that returns exactly the stored messages of that group, in
log order, with `m1` before `m2`. -/
theorem spec_C8_query_order (log : List Message) (m1 m2 : Message) (g : String)
    (h1 : m1.group = some g) (h2 : m2.group = some g) :
    saveMessage true m1 log = Except.ok (log ++ [m1]) ∧
    saveMessage true m2 (log ++ [m1]) = Except.ok (log ++ [m1] ++ [m2]) ∧
    getMessages g (log ++ [m1] ++ [m2]) = getMessages g log ++ [m1, m2] ∧
    (getMessages g (log ++ [m1] ++ [m2])).all (fun m => m.group == some g) = true := by
  refine ⟨rfl, rfl, ?_, ?_⟩
  · simp [getMessages, List.filter_append, h1, h2]
  · rw [List.all_eq_true]
    intro m hm
    exact (List.mem_filter.mp hm).2

/-- Witness for C8 at two concrete lobby messages. -/
theorem spec_C8_witness :
    saveMessage true m1W [] = Except.ok ([] ++ [m1W]) ∧
    saveMessage true m2W ([] ++ [m1W]) = Except.ok ([] ++ [m1W] ++ [m2W]) ∧
    getMessages "lobby" ([] ++ [m1W] ++ [m2W]) = getMessages "lobby" [] ++ [m1W, m2W] ∧
    (getMessages "lobby" ([] ++ [m1W] ++ [m2W])).all
      (fun m => m.group == some "lobby") = true :=
  spec_C8_query_order [] m1W m2W "lobby" (by decide) (by decide)

theorem broadcastTargets_count_of_notMem (mg : Option String)
    (cl : List (String × Client)) (cid : String) (h : cid ∉ cl.map Prod.fst) :
    (broadcastTargets mg cl).count cid = 0 := by
  rw [List.count_eq_zero]
  intro hmem
  apply h
  rcases List.mem_map.mp hmem with ⟨p, hp, hfst⟩
  exact List.mem_map.mpr ⟨p, (List.mem_filter.mp hp).1, hfst⟩

theorem broadcastTargets_cons (mg : Option String) (p : String × Client)
    (t : List (String × Client)) :
    broadcastTargets mg (p :: t) =
      if (p.2.group == mg && p.2.wsOpen) = true then p.1 :: broadcastTargets mg t
      else broadcastTargets mg t := by
  by_cases hq : (p.2.group == mg && p.2.wsOpen) = true
  · rw [broadcastTargets, List.filter_cons, if_pos hq, if_pos hq, List.map_cons]
    rfl
  · rw [broadcastTargets, List.filter_cons, if_neg hq, if_neg hq]
    rfl

/-- Claim C9: a fan-out to group `mg` sends exactly one copy to each
client entry whose subscribed group equals `mg` and whose socket is
open, and zero copies to every other client entry. -/
theorem spec_C9_fanout (cl : List (String × Client)) (cid : String) (c : Client)
    (mg : Option String) (hnd : (cl.map Prod.fst).Nodup) (hmem : (cid, c) ∈ cl) :
    (broadcastTargets mg cl).count cid =
      if c.group = mg ∧ c.wsOpen = true then 1 else 0 := by
  induction cl with
  | nil => cases hmem
  | cons p t ih =>
    rw [List.map_cons, List.nodup_cons] at hnd
    rw [broadcastTargets_cons]
    rcases List.mem_cons.mp hmem with hhead | htail
    · have hp : p = (cid, c) := hhead.symm
      subst hp
      by_cases hq : ((cid, c).2.group == mg && (cid, c).2.wsOpen) = true
      · have hcond : c.group = mg ∧ c.wsOpen = true := by
          simpa using hq
        rw [if_pos hq, if_pos hcond, List.count_cons_self,
          broadcastTargets_count_of_notMem mg t cid hnd.1]
      · have hcond : ¬(c.group = mg ∧ c.wsOpen = true) := by
          intro hP
          exact hq (by simp [hP.1, hP.2])
        rw [if_neg hq, if_neg hcond,
          broadcastTargets_count_of_notMem mg t cid hnd.1]
    · have hcid : cid ∈ t.map Prod.fst := List.mem_map.mpr ⟨(cid, c), htail, rfl⟩
      have hne : p.1 ≠ cid := fun hX => hnd.1 (hX ▸ hcid)
      have ht := ih hnd.2 htail
      by_cases hq : (p.2.group == mg && p.2.wsOpen) = true
      · rw [if_pos hq, List.count_cons_of_ne (Ne.symm hne), ht]
      · rw [if_neg hq, ht]

/-- Witness for C9: the subscriber of `G` gets one copy, the subscriber
of `H` gets none. -/
theorem spec_C9_witness :
    (broadcastTargets (some "G") clW).count "c1" = 1 ∧
    (broadcastTargets (some "G") clW).count "c2" = 0 :=
  ⟨spec_C9_fanout clW "c1" ⟨some "G", true⟩ (some "G") (by decide) (by decide),
   spec_C9_fanout clW "c2" ⟨some "H", true⟩ (some "G") (by decide) (by decide)⟩
